import Mathlib

/-!
Shallow embedding of the GeoFLow groundwater query service (src/main.py,
src/init.py) for verification of its intent-classification and
localized-reply-generation pipeline.

Modelling conventions:
* Python strings are Lean `String`s; `k in msg` (substring containment) is
  `hasSub msg k`, decided through list-infix containment on the character
  lists.
* The sqlite table `groundwater` is a `List Record`; the query
  `SELECT * FROM groundwater WHERE lower(location)=lower(?)` with `rows[0]`
  is a first-match scan under case-insensitive comparison.
* Numeric columns (REAL / INTEGER) are carried as the text that Python
  interpolates into the reply templates, since the templates only ever use
  their textual representation (spec section 4.4 leaves the precision rule
  to the stored text).
* The external generative-text call is an oracle `String → Except String
  String`; `Except.error` is a raised exception caught by the
  `try/except` in `get_llm_response`.
* `HTTPException(status_code=404)` is `Except.error 404`; the xlsx binary
  produced by openpyxl is abstracted to the key-value rows written to the
  sheet plus the response headers.
-/

/-- Characters written by code point to keep format-string braces out of
string literals. -/
def lbrace : Char := Char.ofNat 123

/-- Closing brace character. -/
def rbrace : Char := Char.ofNat 125

/-- Python `tok in msg`: substring containment. -/
def hasSub (msg tok : String) : Bool := decide (tok.toList <:+: msg.toList)

/-- Python `s.lower()` (and SQL `lower(...)`): lowercase the string
character by character. -/
def lowerStr (s : String) : String := String.mk (s.toList.map Char.toLower)

/-- Python `s.strip()`: drop leading and trailing whitespace. -/
def stripStr (s : String) : String :=
  String.mk (((s.toList.dropWhile Char.isWhitespace).reverse.dropWhile
    Char.isWhitespace).reverse)

/-- Python `message.lower().strip()`. -/
def normalizeMsg (s : String) : String := stripStr (lowerStr s)

/-- One row of the `groundwater` table (src/init.py schema). -/
structure Record where
  location : String
  groundwater_level : String
  pH : String
  TDS : String
  COD : String
  BOD : String
  status : String
  last_updated : String
deriving DecidableEq

/-- Value of one language entry of the `translations` dictionary in
src/main.py. -/
structure Translation where
  greeting : String
  no_location : String
  no_data : String
  level_reply : String
  quality_reply : String
  status_reply : String
  full_report_title : String
  full_report_level : String
  full_report_ph : String
  full_report_tds : String
  full_report_cod : String
  full_report_bod : String
  full_report_status : String
  full_report_date : String
  unknown_request : String
  tds_def : String
  bod_def : String
  cod_def : String
  ph_def : String
  def_error : String
deriving DecidableEq

/-- English entry of `translations` (src/main.py lines 82-103). -/
def en : Translation := {
  greeting := "Hello! I can tell you about groundwater level, quality (pH/TDS/COD/BOD), and irrigation status. Just ask, e.g., \x27groundwater level in Kuppam\x27",
  no_location := "Please specify a location (example: \x27groundwater level in Kuppam\x27)",
  no_data := "No data found for location: {location}",
  level_reply := "Groundwater level in {location}: {level} m. Last updated: {date}.",
  quality_reply := "Water quality in {location}: pH is {ph}, TDS is {tds} mg/L, COD is {cod} mg/L, and BOD is {bod} mg/L. Last updated: {date}.",
  status_reply := "For {location}, the water is: {status}. Last updated: {date}.",
  full_report_title := "Here is the full report for {location}:",
  full_report_level := "• Groundwater Level: {level} m.",
  full_report_ph := "• pH: {ph}.",
  full_report_tds := "• TDS: {tds} mg/L.",
  full_report_cod := "• COD: {cod} mg/L.",
  full_report_bod := "• BOD: {bod} mg/L.",
  full_report_status := "• Status: {status}.",
  full_report_date := "• Last updated: {date}.",
  unknown_request := "I\x27m sorry, I don\x27t understand that request. Could you please rephrase?",
  tds_def := "TDS stands for Total Dissolved Solids. It is a measure of the total concentration of dissolved substances in water, which affects its taste and quality.",
  bod_def := "BOD stands for Biochemical Oxygen Demand. It measures the amount of oxygen consumed by microorganisms to decompose organic matter in water.",
  cod_def := "COD stands for Chemical Oxygen Demand. It measures the amount of oxygen required to chemically break down pollutants in water.",
  ph_def := "pH is a measure of how acidic or alkaline (basic) the water is. A pH of 7 is neutral, while lower values are acidic and higher values are alkaline.",
  def_error := "I can define TDS, BOD, COD, or pH for you. Please ask for a specific term."
}

/-- Tamil entry of `translations` (src/main.py lines 104-125). -/
def ta : Translation := {
  greeting := "வணக்கம்! நிலத்தடி நீர் மட்டம், தரம் (pH/TDS/COD/BOD) மற்றும் பாசன நிலை குறித்து நான் உங்களுக்குச் சொல்ல முடியும். உதாரணமாக, \x27குப்பம் நிலத்தடி நீர் மட்டம்\x27 என்று கேளுங்கள்.",
  no_location := "தயவுசெய்து ஒரு இடத்தைக் குறிப்பிடவும் (உதாரணமாக: \x27குப்பம் நிலத்தடி நீர் மட்டம்\x27)",
  no_data := "{location} இடத்திற்கான தரவு கிடைக்கவில்லை",
  level_reply := "{location} இல் நிலத்தடி நீர் மட்டம்: {level} மீ. கடைசியாக புதுப்பிக்கப்பட்டது: {date}.",
  quality_reply := "{location} இல் நீர் தரம்: pH {ph}, TDS {tds} மி.கி/லி, COD {cod} மி.கி/லி, மற்றும் BOD {bod} மி.கி/லி. கடைசியாக புதுப்பிக்கப்பட்டது: {date}.",
  status_reply := "{location} இல் உள்ள நீர்: {status}. கடைசியாக புதுப்பிக்கப்பட்டது: {date}.",
  full_report_title := "{location} குறித்த முழு அறிக்கை இங்கே உள்ளது:",
  full_report_level := "• நிலத்தடி நீர் மட்டம்: {level} மீ.",
  full_report_ph := "• pH: {ph}.",
  full_report_tds := "• TDS: {tds} மி.கி/லி.",
  full_report_cod := "• COD: {cod} மி.கி/லி.",
  full_report_bod := "• BOD: {bod} மி.கி/லி.",
  full_report_status := "• நிலை: {status}.",
  full_report_date := "• கடைசியாக புதுப்பிக்கப்பட்டது: {date}.",
  unknown_request := "மன்னிக்கவும், அந்த கோரிக்கை எனக்குப் புரியவில்லை. தயவுசெய்து மீண்டும் கேட்க முடியுமா?",
  tds_def := "TDS என்பது நீரில் கரைந்துள்ள மொத்த திடப்பொருட்களைக் குறிக்கிறது. இது நீரின் சுவை மற்றும் தரத்தை பாதிக்கும் நீரில் கரைந்துள்ள பொருட்களின் மொத்த செறிவின் அளவீடு ஆகும்.",
  bod_def := "BOD என்பது உயிரி இரசாயன ஆக்ஸிஜன் தேவையைக் குறிக்கிறது. இது நீரில் உள்ள கரிமப் பொருட்களை சிதைக்க நுண்ணுயிரிகளால் பயன்படுத்தப்படும் ஆக்ஸிஜன் அளவை அளவிடுகிறது.",
  cod_def := "COD என்பது இரசாயன ஆக்ஸிஜன் தேவையைக் குறிக்கிறது. இது நீரில் உள்ள மாசுக்களை இரசாயன ரீதியாக உடைக்கத் தேவையான ஆக்ஸிஜன் அளவை அளவிடுகிறது.",
  ph_def := "pH என்பது நீர் எவ்வளவு அமிலத்தன்மை கொண்டது அல்லது காரத்தன்மை கொண்டது என்பதற்கான அளவீடு ஆகும். pH 7 என்பது நடுநிலை, அதேசமயம் குறைந்த மதிப்புகள் அமிலத்தன்மை கொண்டவை மற்றும் அதிக மதிப்புகள் காரத்தன்மை கொண்டவை.",
  def_error := "நான் உங்களுக்கு TDS, BOD, COD அல்லது pH-ஐ வரையறுக்க முடியும். தயவுசெய்து ஒரு குறிப்பிட்ட பதத்தைக் கேளுங்கள்."
}

/-- Telugu entry of `translations` (src/main.py lines 126-147); the mixed
Tamil runs inside `ph_def` and `def_error` are verbatim from the source. -/
def te : Translation := {
  greeting := "నమస్కారం! నేను మీకు భూగర్భ జలాల స్థాయి, నాణ్యత (pH/TDS/COD/BOD), మరియు సాగునీటి స్థితి గురించి చెప్పగలను. ఉదాహరణకు, \x27కుప్పం భూగర్భ జలాల స్థాయి\x27 అని అడగండి.",
  no_location := "దయచేసి ఒక స్థానాన్ని పేర్కొనండి (ఉదాహరణకు: \x27కుప్పం భూగర్భ జలాల స్థాయి\x27)",
  no_data := "{location} స్థానానికి డేటా కనుగొనబడలేదు",
  level_reply := "{location} లో భూగర్భ జలాల స్థాయి: {level} మీ. చివరిగా నవీకరించబడింది: {date}.",
  quality_reply := "{location} లో నీటి నాణ్యత: pH {ph}, TDS {tds} mg/L, COD {cod} mg/L, మరియు BOD {bod} mg/L. చివరిగా నవీకరించబడింది: {date}.",
  status_reply := "{location} కోసం, నీరు: {status}. చివరిగా నవీకరించబడింది: {date}.",
  full_report_title := "{location} కోసం పూర్తి నివేదిక ఇక్కడ ఉంది:",
  full_report_level := "• భూగర్భ జలాల స్థాయి: {level} మీ.",
  full_report_ph := "• pH: {ph}.",
  full_report_tds := "• TDS: {tds} mg/L.",
  full_report_cod := "• COD: {cod} mg/L.",
  full_report_bod := "• BOD: {bod} mg/L.",
  full_report_status := "• స్థితి: {status}.",
  full_report_date := "• చివరిగా నవీకరించబడింది: {date}.",
  unknown_request := "క్షమించండి, ఆ అభ్యర్థన నాకు అర్థం కాలేదు. దయచేసి తిరిగి అడగగలరా?",
  tds_def := "TDS అంటే మొత్తం కరిగిన ఘనపదార్థాలు. ఇది నీటి రుచి మరియు నాణ్యతను ప్రభావితం చేసే నీటిలో కరిగిన పదార్ధాల మొత్తం సాంద్రత యొక్క కొలత.",
  bod_def := "BOD అంటే జీవరసాయన ఆక్సిజన్ డిమాండ్. ఇది నీటిలో సేంద్రీయ పదార్థాన్ని కుళ్ళిపోయేలా సూక్ష్మజీవుల ద్వారా వినియోగించబడే ఆక్సిజన్ మొత్తాన్ని కొలుస్తుంది.",
  cod_def := "COD అంటే రసాయన ఆక్సిజన్ డిమాండ్. ఇది నీటిలో కాలుష్య కారకాలను రసాయనికంగా విచ్ఛిన్నం చేయడానికి అవసరమైన ఆక్సిజన్ మొత్తాన్ని కొలుస్తుంది.",
  ph_def := "pH అనేది నీరు ఎంత ఆమ్లంగా లేదా క్షారంగా (బేసిక్) ఉందో కొలిచే కొలత. pH 7 అనేది நடுநிலை, అదేసమయం குறைந்த மதிப்புகள் ఆమ్లంగా మరియు అధిక విలువలు క్షారంగా ఉంటాయి.",
  def_error := "నేను మీకు TDS, BOD, COD లేదా pH ను నిర్వచించగలను. தயவுசெய்து ఒక నిర్దిஷ்ட పదం కోసం అడగండి."
}

/-- The `translations` dictionary: language code to translation table, in
source order. -/
def translations : List (String × Translation) := [("en", en), ("ta", ta), ("te", te)]

/-- Python `language in translations` membership test. -/
def hasLang (l : String) : Bool := (translations.lookup l).isSome

/-- Python `query_in.language if query_in.language in translations else "en"`
(src/main.py line 198). -/
def normLang (l : String) : String := if hasLang l then l else "en"

/-- Python `translations[language]`. The source only ever indexes with a key
present in the dictionary (the normalized language), so the `getD` default
is unreachable there. -/
def getLang (l : String) : Translation := (translations.lookup l).getD en

/-- The `location_aliases` dictionary of src/main.py lines 73-78, in
insertion order. -/
def location_aliases : List (String × String) := [
  ("salem", "Salem"), ("salem (extended)", "Salem (Extended)"), ("puducherry", "Puducherry"),
  ("kumbakonam", "Kumbakonam Town"), ("kumbakonam town", "Kumbakonam Town"), ("kanchipuram", "Kanchipuram"),
  ("kanchipuram town", "Kanchipuram Town"), ("karaikal", "Karaikal"), ("karaikal town", "Karaikal Town"),
  ("viluppuram", "Viluppuram"), ("villupuram", "Villupuram")]

/-- The alias scan loop of handle_query (src/main.py lines 211-215): walk
the alias table in order, stop at the first alias contained in the message. -/
def scan_aliases (msg : String) : List (String × String) → Option String
  | [] => none
  | p :: rest => if hasSub msg p.1 then some p.2 else scan_aliases msg rest

/-- First-match alias resolution over the full alias table. -/
def resolve_alias (msg : String) : Option String := scan_aliases msg location_aliases

/-- Python `str.format` with keyword arguments: one pass over the template,
substituting each `\x7bname\x7d` placeholder by its argument. Python raises
`KeyError` on a name missing from the arguments; the source templates never
do, so that case is modelled by echoing the name back. -/
def pyFormatAux (args : List (String × String)) (cs : List Char) : List Char :=
  match cs with
  | [] => []
  | c :: rest =>
    if c = lbrace then
      ((args.lookup (String.mk (rest.takeWhile (fun d => !(d == rbrace))))).getD
          (String.mk (rest.takeWhile (fun d => !(d == rbrace))))).toList ++
        pyFormatAux args ((rest.dropWhile (fun d => !(d == rbrace))).drop 1)
    else c :: pyFormatAux args rest
termination_by cs.length
decreasing_by
  · have h1 : (rest.dropWhile (fun d => !(d == rbrace))).length ≤ rest.length :=
      (List.dropWhile_sublist _).length_le
    simp only [List.length_drop, List.length_cons]
    omega
  · simp [Nat.lt_succ_self]

/-- Python `template.format(...)` restricted to keyword arguments. -/
def pyFormat (template : String) (args : List (String × String)) : String :=
  String.mk (pyFormatAux args template.toList)

/-- generate_reply of src/main.py lines 151-172. `language` is the already
normalized language key. -/
def generate_reply (rec : Record) (language : String) (query_type : String) : String :=
  let t := getLang language
  if query_type = "level" then
    pyFormat t.level_reply [("location", rec.location), ("level", rec.groundwater_level), ("date", rec.last_updated)]
  else if query_type = "quality" then
    pyFormat t.quality_reply [("location", rec.location), ("ph", rec.pH), ("tds", rec.TDS), ("cod", rec.COD), ("bod", rec.BOD), ("date", rec.last_updated)]
  else if query_type = "status" then
    pyFormat t.status_reply [("location", rec.location), ("status", rec.status), ("date", rec.last_updated)]
  else
    pyFormat t.full_report_title [("location", rec.location)] ++ "\n" ++
    pyFormat t.full_report_level [("level", rec.groundwater_level)] ++ "\n" ++
    pyFormat t.full_report_ph [("ph", rec.pH)] ++ "\n" ++
    pyFormat t.full_report_tds [("tds", rec.TDS)] ++ "\n" ++
    pyFormat t.full_report_cod [("cod", rec.COD)] ++ "\n" ++
    pyFormat t.full_report_bod [("bod", rec.BOD)] ++ "\n" ++
    pyFormat t.full_report_status [("status", rec.status)] ++ "\n" ++
    pyFormat t.full_report_date [("date", rec.last_updated)]

/-- get_record_by_location of src/main.py lines 49-51: first row of the
table matching the key case-insensitively. -/
def get_record_by_location (db : List Record) (location : String) : Option Record :=
  db.find? (fun r => lowerStr r.location == lowerStr location)

/-- get_llm_response of src/main.py lines 54-61. The external Gemini client
is an oracle returning either generated text or a raised exception. -/
def get_llm_response (call : String → Except String String) (prompt : String) : String :=
  match call prompt with
  | Except.ok t => t
  | Except.error _ => "I am unable to provide a general response at this moment."

/-- The sub-type classification inside the data-query branch of
handle_query (src/main.py lines 222-228). -/
def classify_subtype (msg : String) : String :=
  if ["level", "water table"].any (fun k => hasSub msg k) then "level"
  else if ["ph", "tds", "cod", "bod", "quality"].any (fun k => hasSub msg k) then "quality"
  else if ["status", "irrigation", "drinking", "recommended"].any (fun k => hasSub msg k) then "status"
  else "full"

/-- JSON body returned by the query endpoints: a reply string and an
optional location key. -/
structure Reply where
  reply : String
  location : Option String
deriving DecidableEq

/-- handle_query, the POST /api/query handler of src/main.py lines 195-236. -/
def handle_query (call : String → Except String String) (db : List Record)
    (message : String) (language : String) : Reply :=
  let msg := normalizeMsg message
  let lang := normLang language
  let t := getLang lang
  if ["hi", "hello", "hey"].any (fun k => hasSub msg k) then
    ⟨t.greeting, none⟩
  else if ["what is", "define", "meaning of", "what does"].any (fun k => hasSub msg k) then
    if hasSub msg "tds" then ⟨t.tds_def, none⟩
    else if hasSub msg "bod" then ⟨t.bod_def, none⟩
    else if hasSub msg "cod" then ⟨t.cod_def, none⟩
    else if hasSub msg "ph" then ⟨t.ph_def, none⟩
    else ⟨t.def_error, none⟩
  else
    match resolve_alias msg with
    | some location =>
      match get_record_by_location db location with
      | none => ⟨pyFormat t.no_data [("location", location)], none⟩
      | some rec => ⟨generate_reply rec lang (classify_subtype msg), some rec.location⟩
    | none =>
      ⟨get_llm_response call ("The user is asking a question in English. The reply must be in " ++ lang ++ " and conversational.\nUser query: " ++ msg), none⟩

/-- Successful response of GET /api/report: the key-value rows written to
the worksheet, the media type, and the Content-Disposition header
(src/main.py lines 262-306). -/
structure ReportResponse where
  content : List (String × String)
  media_type : String
  content_disposition : String
deriving DecidableEq

/-- get_report, the GET /api/report handler: 404 when the location has no
record, otherwise the spreadsheet response. -/
def get_report (db : List Record) (location : String) : Except Nat ReportResponse :=
  match get_record_by_location db location with
  | none => Except.error 404
  | some rec => Except.ok ⟨
      [("Location", rec.location), ("Last Updated", rec.last_updated),
       ("Groundwater Level", rec.groundwater_level ++ " m"), ("pH", rec.pH),
       ("TDS", rec.TDS ++ " mg/L"), ("COD", rec.COD ++ " mg/L"),
       ("BOD", rec.BOD ++ " mg/L"), ("Status", rec.status)],
      "application/vnd.openxmlformats-officedocument.spreadsheetml.sheet",
      "attachment; filename=groundwater_report_" ++ location ++ ".xlsx"⟩

/-- Substring containment transfers through an intermediate string: if `big`
occurs in `msg` and `small` occurs in `big`, then `small` occurs in `msg`. -/
theorem hasSub_trans {msg big small : String} (h1 : hasSub msg big = true)
    (h2 : hasSub big small = true) : hasSub msg small = true := by
  simp only [hasSub, decide_eq_true_eq] at h1 h2 ⊢
  exact h2.trans h1

/-- The alias loop is the first satisfying entry of the table, projected to
its canonical location. -/
theorem scan_aliases_eq_find (msg : String) (l : List (String × String)) :
    scan_aliases msg l = (l.find? (fun p => hasSub msg p.1)).map Prod.snd := by
  induction l with
  | nil => rfl
  | cons q rest ih =>
    cases h : hasSub msg q.1 <;> simp [scan_aliases, List.find?_cons, h, ih]

/-- The resolver yields nothing exactly when no alias occurs in the message. -/
theorem resolve_alias_none_iff (msg : String) :
    resolve_alias msg = none ↔ ∀ p ∈ location_aliases, hasSub msg p.1 = false := by
  rw [resolve_alias, scan_aliases_eq_find]
  simp

/-- First-match characterization of the resolver: a hit is the earliest
entry of the alias table, in insertion order, whose alias occurs in the
message. -/
theorem resolve_alias_some_iff (msg loc : String) :
    resolve_alias msg = some loc ↔
      ∃ i, ∃ h : i < location_aliases.length,
        (location_aliases[i]).2 = loc ∧ hasSub msg (location_aliases[i]).1 = true ∧
        ∀ j : Nat, (hj : j < i) → hasSub msg (location_aliases[j]).1 = false := by
  rw [resolve_alias, scan_aliases_eq_find, Option.map_eq_some']
  constructor
  · rintro ⟨a, hfind, ha2⟩
    rw [List.find?_eq_some_iff_getElem] at hfind
    obtain ⟨hpa, i, h, hia, hmin⟩ := hfind
    refine ⟨i, h, ?_, ?_, ?_⟩
    · rw [hia]; exact ha2
    · rw [hia]; simpa using hpa
    · intro j hj
      simpa using hmin j hj
  · rintro ⟨i, h, h2, hp, hmin⟩
    refine ⟨location_aliases[i], ?_, h2⟩
    rw [List.find?_eq_some_iff_getElem]
    exact ⟨by simpa using hp, i, h, rfl, fun j hj => by simpa using hmin j hj⟩

/-- Record used by the concrete witnesses: the spec section 8 scenario row
for Salem. -/
def recW : Record := ⟨"Salem", "12.4", "7.1", "450", "10", "3", "safe for drinking", "2024-01-01"⟩

/-- Single-row table used by the concrete witnesses. -/
def dbW : List Record := [recW]

/-- C1: any /api/query message whose normalized form contains a greeting
token ("hi", "hello", "hey") as a substring gets the localized greeting
reply, regardless of what else the message contains. -/
theorem claim_C1_greeting_wins (call : String → Except String String) (db : List Record)
    (message language : String)
    (h : (["hi", "hello", "hey"].any (fun k => hasSub (normalizeMsg message) k)) = true) :
    handle_query call db message language = ⟨(getLang (normLang language)).greeting, none⟩ := by
  simp [handle_query, h]

/-- Witness for C1 at a message that contains both a greeting token and the
location alias "salem". -/
theorem claim_C1_witness :
    handle_query (fun _ => Except.error "down") dbW "Hi Salem" "en" =
      ⟨(getLang (normLang "en")).greeting, none⟩ :=
  claim_C1_greeting_wins _ dbW "Hi Salem" "en" (by decide)

/-- C2: a non-greeting message carrying a definition trigger is answered by
the definition branch alone: the first matching term in the order TDS, BOD,
COD, pH decides the reply, and with no matching term the localized
definition-error string is returned; no such message reaches the data-query
or fallback branches. -/
theorem claim_C2_definition_branch (call : String → Except String String) (db : List Record)
    (message language : String)
    (hg : (["hi", "hello", "hey"].any (fun k => hasSub (normalizeMsg message) k)) = false)
    (hd : (["what is", "define", "meaning of", "what does"].any
      (fun k => hasSub (normalizeMsg message) k)) = true) :
    (hasSub (normalizeMsg message) "tds" = true →
      handle_query call db message language = ⟨(getLang (normLang language)).tds_def, none⟩) ∧
    (hasSub (normalizeMsg message) "tds" = false →
      hasSub (normalizeMsg message) "bod" = true →
      handle_query call db message language = ⟨(getLang (normLang language)).bod_def, none⟩) ∧
    (hasSub (normalizeMsg message) "tds" = false →
      hasSub (normalizeMsg message) "bod" = false →
      hasSub (normalizeMsg message) "cod" = true →
      handle_query call db message language = ⟨(getLang (normLang language)).cod_def, none⟩) ∧
    (hasSub (normalizeMsg message) "tds" = false →
      hasSub (normalizeMsg message) "bod" = false →
      hasSub (normalizeMsg message) "cod" = false →
      hasSub (normalizeMsg message) "ph" = true →
      handle_query call db message language = ⟨(getLang (normLang language)).ph_def, none⟩) ∧
    (hasSub (normalizeMsg message) "tds" = false →
      hasSub (normalizeMsg message) "bod" = false →
      hasSub (normalizeMsg message) "cod" = false →
      hasSub (normalizeMsg message) "ph" = false →
      handle_query call db message language = ⟨(getLang (normLang language)).def_error, none⟩) := by
  refine ⟨fun h1 => ?_, fun h1 h2 => ?_, fun h1 h2 h3 => ?_, fun h1 h2 h3 h4 => ?_,
    fun h1 h2 h3 h4 => ?_⟩ <;> simp [handle_query, hg, hd, *]

/-- Witness for C2 at the spec scenario "what is tds". -/
theorem claim_C2_witness :
    handle_query (fun _ => Except.error "down") dbW "what is tds" "en" =
      ⟨(getLang (normLang "en")).tds_def, none⟩ :=
  (claim_C2_definition_branch _ dbW "what is tds" "en" (by decide) (by decide)).1 (by decide)

/-- C3: once the data-query branch is reached with a resolved location and
an existing record, the reply is generated for the sub-type selected in the
strict order level, quality, status, with full-report as the default; the
selection is a single value of the classifier. -/
theorem claim_C3_subtype_order (call : String → Except String String) (db : List Record)
    (message language loc : String) (rec : Record)
    (hg : (["hi", "hello", "hey"].any (fun k => hasSub (normalizeMsg message) k)) = false)
    (hd : (["what is", "define", "meaning of", "what does"].any
      (fun k => hasSub (normalizeMsg message) k)) = false)
    (hres : resolve_alias (normalizeMsg message) = some loc)
    (hrec : get_record_by_location db loc = some rec) :
    handle_query call db message language =
      ⟨generate_reply rec (normLang language) (classify_subtype (normalizeMsg message)),
        some rec.location⟩ ∧
    ∀ msg : String,
      ((["level", "water table"].any (fun k => hasSub msg k)) = true →
        classify_subtype msg = "level") ∧
      ((["level", "water table"].any (fun k => hasSub msg k)) = false →
        (["ph", "tds", "cod", "bod", "quality"].any (fun k => hasSub msg k)) = true →
        classify_subtype msg = "quality") ∧
      ((["level", "water table"].any (fun k => hasSub msg k)) = false →
        (["ph", "tds", "cod", "bod", "quality"].any (fun k => hasSub msg k)) = false →
        (["status", "irrigation", "drinking", "recommended"].any (fun k => hasSub msg k)) = true →
        classify_subtype msg = "status") ∧
      ((["level", "water table"].any (fun k => hasSub msg k)) = false →
        (["ph", "tds", "cod", "bod", "quality"].any (fun k => hasSub msg k)) = false →
        (["status", "irrigation", "drinking", "recommended"].any (fun k => hasSub msg k)) = false →
        classify_subtype msg = "full") ∧
      classify_subtype msg ∈ (["level", "quality", "status", "full"] : List String) := by
  constructor
  · simp [handle_query, hg, hd, hres, hrec]
  · intro msg
    refine ⟨fun h1 => ?_, fun h1 h2 => ?_, fun h1 h2 h3 => ?_, fun h1 h2 h3 => ?_, ?_⟩
    · simp [classify_subtype, h1]
    · simp [classify_subtype, h1, h2]
    · simp [classify_subtype, h1, h2, h3]
    · simp [classify_subtype, h1, h2, h3]
    · rw [classify_subtype]
      split
      · simp
      · split
        · simp
        · split <;> simp

/-- Witness for C3 at the spec scenario "groundwater level in Salem". -/
theorem claim_C3_witness :
    handle_query (fun _ => Except.error "down") dbW "groundwater level in Salem" "en" =
      ⟨generate_reply recW (normLang "en")
        (classify_subtype (normalizeMsg "groundwater level in Salem")), some recW.location⟩ :=
  (claim_C3_subtype_order _ dbW "groundwater level in Salem" "en" "Salem" recW
    (by decide) (by decide) (by decide) (by decide)).1

/-- C4: the alias scan is a first-match scan in insertion order of the alias
table, returning nothing exactly when no alias occurs in the message; being
a function of the message, it is deterministic for the fixed table. -/
theorem claim_C4_alias_first_match (msg : String) :
    (resolve_alias msg = none ↔ ∀ p ∈ location_aliases, hasSub msg p.1 = false) ∧
    ∀ loc : String, resolve_alias msg = some loc ↔
      ∃ i, ∃ h : i < location_aliases.length,
        (location_aliases[i]).2 = loc ∧ hasSub msg (location_aliases[i]).1 = true ∧
        ∀ j : Nat, (hj : j < i) → hasSub msg (location_aliases[j]).1 = false :=
  ⟨resolve_alias_none_iff msg, fun loc => resolve_alias_some_iff msg loc⟩

/-- Witness for C4: on "karaikal town please" the scan commits to the
earliest matching alias "karaikal" (index 7) and to no earlier one. -/
theorem claim_C4_witness :
    ∃ i, ∃ h : i < location_aliases.length,
      (location_aliases[i]).2 = "Karaikal" ∧
      hasSub "karaikal town please" (location_aliases[i]).1 = true ∧
      ∀ j : Nat, (hj : j < i) →
        hasSub "karaikal town please" (location_aliases[j]).1 = false :=
  ((claim_C4_alias_first_match "karaikal town please").2 "Karaikal").mp (by decide)

/-- C6: an unsupported language code behaves exactly like "en": the handler
normalizes the language up front, so the whole reply coincides with the
English one and no path can fail on the language code. -/
theorem claim_C6_language_fallback (call : String → Except String String) (db : List Record)
    (message language : String) (h : hasLang language = false) :
    handle_query call db message language = handle_query call db message "en" := by
  have h1 : normLang language = "en" := by simp [normLang, h]
  have h2 : normLang "en" = "en" := by simp [normLang]
  simp only [handle_query, h1, h2]

/-- Witness for C6 at the unsupported code "fr". -/
theorem claim_C6_witness :
    handle_query (fun _ => Except.error "down") dbW "status of salem" "fr" =
      handle_query (fun _ => Except.error "down") dbW "status of salem" "en" :=
  claim_C6_language_fallback _ dbW "status of salem" "fr" (by decide)

/-- C7: whenever the external generative call raises, get_llm_response
swallows the exception and returns the fixed apology string, so the
fallback path always yields a string. -/
theorem claim_C7_llm_error_apology (call : String → Except String String)
    (prompt e : String) (h : call prompt = Except.error e) :
    get_llm_response call prompt =
      "I am unable to provide a general response at this moment." := by
  simp [get_llm_response, h]

/-- Witness for C7 with an always-failing external call. -/
theorem claim_C7_witness :
    get_llm_response (fun _ => (Except.error "quota" : Except String String)) "any prompt" =
      "I am unable to provide a general response at this moment." :=
  claim_C7_llm_error_apology _ "any prompt" "quota" rfl

/-- C8: the report endpoint 404s exactly when no record matches the path
location case-insensitively, and a successful response carries the
Content-Disposition filename groundwater_report_{location}.xlsx. -/
theorem claim_C8_report_404 (db : List Record) (location : String) :
    (get_report db location = Except.error 404 ↔
      ∀ r ∈ db, lowerStr r.location ≠ lowerStr location) ∧
    ∀ resp : ReportResponse, get_report db location = Except.ok resp →
      resp.content_disposition =
        "attachment; filename=groundwater_report_" ++ location ++ ".xlsx" := by
  constructor
  · constructor
    · intro h404 r hr
      cases hfind : get_record_by_location db location with
      | some rec => simp [get_report, hfind] at h404
      | none =>
        have := List.find?_eq_none.mp hfind r hr
        simpa using this
    · intro hall
      have hfind : get_record_by_location db location = none := by
        rw [get_record_by_location, List.find?_eq_none]
        intro r hr
        simpa using hall r hr
      simp [get_report, hfind]
  · intro resp hok
    cases hfind : get_record_by_location db location with
    | none => simp [get_report, hfind] at hok
    | some rec =>
      simp only [get_report, hfind] at hok
      injection hok with hres
      rw [← hres]

/-- Witness for C8 at the spec scenario of an unknown report location. -/
theorem claim_C8_witness : get_report dbW "UnknownPlace" = Except.error 404 :=
  (claim_C8_report_404 dbW "UnknownPlace").1.mpr (by decide)


/-- The alias "salem (extended)" contains the earlier alias "salem". -/
theorem salem_shadow : hasSub "salem (extended)" "salem" = true := by
  simp only [hasSub, decide_eq_true_eq]
  exact ⟨[], " (extended)".toList, rfl⟩

/-- The alias "kanchipuram town" contains the earlier alias "kanchipuram". -/
theorem kanchipuram_shadow : hasSub "kanchipuram town" "kanchipuram" = true := by
  simp only [hasSub, decide_eq_true_eq]
  exact ⟨[], " town".toList, rfl⟩

/-- The alias "karaikal town" contains the earlier alias "karaikal". -/
theorem karaikal_shadow : hasSub "karaikal town" "karaikal" = true := by
  simp only [hasSub, decide_eq_true_eq]
  exact ⟨[], " town".toList, rfl⟩

/-- The greeting token "hi" occurs inside the alias "kanchipuram". -/
theorem kanchipuram_hasSub_hi : hasSub "kanchipuram" "hi" = true := by
  simp only [hasSub, decide_eq_true_eq]
  exact ⟨"kanc".toList, "puram".toList, rfl⟩

/-- C9: the first-match scan can never yield the canonical keys
"Salem (Extended)", "Kanchipuram Town" or "Karaikal Town": each of their
aliases textually contains an earlier-inserted alias of the table, which
always wins the scan and maps elsewhere, so those records are unreachable
through the text resolver. -/
theorem claim_C9_shadowed_aliases (msg : String) :
    resolve_alias msg ≠ some "Salem (Extended)" ∧
    resolve_alias msg ≠ some "Kanchipuram Town" ∧
    resolve_alias msg ≠ some "Karaikal Town" := by
  have t1 : hasSub msg "salem (extended)" = true → hasSub msg "salem" = true :=
    fun h => hasSub_trans h salem_shadow
  have t2 : hasSub msg "kanchipuram town" = true → hasSub msg "kanchipuram" = true :=
    fun h => hasSub_trans h kanchipuram_shadow
  have t3 : hasSub msg "karaikal town" = true → hasSub msg "karaikal" = true :=
    fun h => hasSub_trans h karaikal_shadow
  refine ⟨?_, ?_, ?_⟩ <;> intro hc
  · obtain ⟨i, h, h2, hp, hmin⟩ := (resolve_alias_some_iff msg "Salem (Extended)").mp hc
    have h11 : i < 11 := by simpa [location_aliases] using h
    have hm : 0 < i → hasSub msg (location_aliases[0]).1 = false := fun hlt => hmin 0 hlt
    interval_cases i <;> simp_all [location_aliases]
  · obtain ⟨i, h, h2, hp, hmin⟩ := (resolve_alias_some_iff msg "Kanchipuram Town").mp hc
    have h11 : i < 11 := by simpa [location_aliases] using h
    have hm : 5 < i → hasSub msg (location_aliases[5]).1 = false := fun hlt => hmin 5 hlt
    interval_cases i <;> simp_all [location_aliases]
  · obtain ⟨i, h, h2, hp, hmin⟩ := (resolve_alias_some_iff msg "Karaikal Town").mp hc
    have h11 : i < 11 := by simpa [location_aliases] using h
    have hm : 7 < i → hasSub msg (location_aliases[7]).1 = false := fun hlt => hmin 7 hlt
    interval_cases i <;> simp_all [location_aliases]

/-- Witness for C9 at messages that literally name the shadowed aliases. -/
theorem claim_C9_witness :
    resolve_alias "salem (extended)" ≠ some "Salem (Extended)" ∧
    resolve_alias "kanchipuram town" ≠ some "Kanchipuram Town" ∧
    resolve_alias "karaikal town" ≠ some "Karaikal Town" :=
  ⟨(claim_C9_shadowed_aliases "salem (extended)").1,
    (claim_C9_shadowed_aliases "kanchipuram town").2.1,
    (claim_C9_shadowed_aliases "karaikal town").2.2⟩

/-- C10: the alias "kanchipuram" contains the greeting token "hi", so every
message whose normalized form names Kanchipuram by that alias is answered
by the greeting branch and can never reach the data-query branch. -/
theorem claim_C10_kanchipuram_greeting (call : String → Except String String)
    (db : List Record) (message language : String)
    (h : hasSub (normalizeMsg message) "kanchipuram" = true) :
    hasSub "kanchipuram" "hi" = true ∧
    handle_query call db message language = ⟨(getLang (normLang language)).greeting, none⟩ := by
  have hhi : hasSub (normalizeMsg message) "hi" = true := hasSub_trans h kanchipuram_hasSub_hi
  exact ⟨kanchipuram_hasSub_hi, by simp [handle_query, hhi]⟩

/-- Witness for C10 at the bare message "kanchipuram". -/
theorem claim_C10_witness :
    hasSub "kanchipuram" "hi" = true ∧
    handle_query (fun _ => Except.error "down") dbW "kanchipuram" "en" =
      ⟨(getLang (normLang "en")).greeting, none⟩ :=
  claim_C10_kanchipuram_greeting _ dbW "kanchipuram" "en" (by decide)

/-- Conversion of a packed string back to its character list. -/
theorem toList_mk (l : List Char) : (String.mk l).toList = l := rfl

/-- Character list of an appended string. -/
theorem toList_append (a b : String) : (a ++ b).toList = a.toList ++ b.toList := rfl

/-- Character list of the newline separator. -/
theorem toList_newline : ("\n" : String).toList = ['\n'] := rfl

/-- Split a character list at newline characters: the visual lines of the
rendered reply, with no implicit trailing line. -/
def splitLines : List Char → List (List Char)
  | [] => [[]]
  | c :: rest =>
    if c = '\n' then [] :: splitLines rest
    else
      match splitLines rest with
      | [] => [[c]]
      | l :: ls => (c :: l) :: ls

/-- A newline-free character list is a single visual line. -/
theorem splitLines_single {a : List Char} (h : a.all (fun c => c != '\n') = true) :
    splitLines a = [a] := by
  induction a with
  | nil => rfl
  | cons c rest ih =>
    rw [List.all_cons, Bool.and_eq_true] at h
    have hc : ¬(c = '\n') := by simpa using h.1
    rw [splitLines, if_neg hc, ih h.2]

/-- Splitting after a newline-free prefix followed by a newline peels off
exactly that prefix as one visual line. -/
theorem splitLines_append {a : List Char} (h : a.all (fun c => c != '\n') = true)
    (b : List Char) : splitLines (a ++ '\n' :: b) = a :: splitLines b := by
  induction a with
  | nil => simp [splitLines]
  | cons c rest ih =>
    rw [List.all_cons, Bool.and_eq_true] at h
    have hc : ¬(c = '\n') := by simpa using h.1
    rw [List.cons_append, splitLines, if_neg hc, ih h.2]

/-- Formatting preserves any character-level invariant that holds of the
template and of every argument value (used with "is not a newline"). -/
theorem pyFormatAux_all (p : Char → Bool) (args : List (String × String))
    (hargs : ∀ q ∈ args, q.2.toList.all p = true) :
    ∀ (n : Nat) (cs : List Char), cs.length ≤ n → cs.all p = true →
      (pyFormatAux args cs).all p = true := by
  intro n
  induction n with
  | zero =>
    intro cs hlen hall
    have hnil : cs = [] := List.length_eq_zero.mp (Nat.le_zero.mp hlen)
    subst hnil
    simp [pyFormatAux]
  | succ n ih =>
    intro cs hlen hall
    match cs with
    | [] => simp [pyFormatAux]
    | c :: rest =>
      rw [List.all_cons, Bool.and_eq_true] at hall
      have hrest : rest.length ≤ n := by
        rw [List.length_cons] at hlen
        omega
      rw [pyFormatAux]
      by_cases hc : c = lbrace
      · rw [if_pos hc, List.all_append, Bool.and_eq_true]
        constructor
        · cases hl : args.lookup (String.mk (rest.takeWhile (fun d => !(d == rbrace)))) with
          | some v =>
            simp only [hl, Option.getD_some]
            obtain ⟨l₁, l₂, heq, -⟩ := List.lookup_eq_some_iff.mp hl
            refine hargs (String.mk (rest.takeWhile (fun d => !(d == rbrace))), v) ?_
            rw [heq]
            exact List.mem_append_right _ (List.mem_cons_self _ _)
          | none =>
            simp only [hl, Option.getD_none, toList_mk]
            rw [List.all_eq_true]
            intro x hx
            exact List.all_eq_true.mp hall.2 x ((List.takeWhile_sublist _).subset hx)
        · apply ih
          · have hd : (rest.dropWhile (fun d => !(d == rbrace))).length ≤ rest.length :=
              (List.dropWhile_sublist _).length_le
            rw [List.length_drop]
            omega
          · rw [List.all_eq_true]
            intro x hx
            have hsub :
                List.Sublist ((rest.dropWhile (fun d => !(d == rbrace))).drop 1) rest :=
              (List.drop_sublist _ _).trans (List.dropWhile_sublist _)
            exact List.all_eq_true.mp hall.2 x (hsub.subset hx)
      · rw [if_neg hc, List.all_cons, Bool.and_eq_true]
        exact ⟨hall.1, ih rest hrest hall.2⟩

/-- Formatting a template whose text and argument values satisfy a
character-level invariant yields a string satisfying it too. -/
theorem pyFormat_all (p : Char → Bool) (template : String) (args : List (String × String))
    (hargs : ∀ q ∈ args, q.2.toList.all p = true)
    (htempl : template.toList.all p = true) :
    (pyFormat template args).toList.all p = true :=
  pyFormatAux_all p args hargs template.toList.length template.toList (le_refl _) htempl

/-- A language key accepted by the translations table is one of the three
supported codes. -/
theorem hasLang_cases {l : String} (h : hasLang l = true) :
    l = "en" ∨ l = "ta" ∨ l = "te" := by
  by_cases h1 : l = "en"
  · exact Or.inl h1
  by_cases h2 : l = "ta"
  · exact Or.inr (Or.inl h2)
  by_cases h3 : l = "te"
  · exact Or.inr (Or.inr h3)
  exfalso
  simp only [hasLang, translations, List.lookup, Option.isSome] at h
  rw [show (l == "en") = false from by simpa using h1,
    show (l == "ta") = false from by simpa using h2,
    show (l == "te") = false from by simpa using h3] at h
  simp at h

/-- The full-report branch of generate_reply, written out. -/
theorem generate_reply_full (rec : Record) (language : String) :
    generate_reply rec language "full" =
      pyFormat (getLang language).full_report_title [("location", rec.location)] ++ "\n" ++
      pyFormat (getLang language).full_report_level [("level", rec.groundwater_level)] ++ "\n" ++
      pyFormat (getLang language).full_report_ph [("ph", rec.pH)] ++ "\n" ++
      pyFormat (getLang language).full_report_tds [("tds", rec.TDS)] ++ "\n" ++
      pyFormat (getLang language).full_report_cod [("cod", rec.COD)] ++ "\n" ++
      pyFormat (getLang language).full_report_bod [("bod", rec.BOD)] ++ "\n" ++
      pyFormat (getLang language).full_report_status [("status", rec.status)] ++ "\n" ++
      pyFormat (getLang language).full_report_date [("date", rec.last_updated)] := rfl

/-- Line structure of the full report, for a single language whose eight
report templates are newline-free. -/
theorem splitLines_full_report (rec : Record) (language : String)
    (ht1 : (getLang language).full_report_title.toList.all (fun c => c != '\n') = true)
    (ht2 : (getLang language).full_report_level.toList.all (fun c => c != '\n') = true)
    (ht3 : (getLang language).full_report_ph.toList.all (fun c => c != '\n') = true)
    (ht4 : (getLang language).full_report_tds.toList.all (fun c => c != '\n') = true)
    (ht5 : (getLang language).full_report_cod.toList.all (fun c => c != '\n') = true)
    (ht6 : (getLang language).full_report_bod.toList.all (fun c => c != '\n') = true)
    (ht7 : (getLang language).full_report_status.toList.all (fun c => c != '\n') = true)
    (ht8 : (getLang language).full_report_date.toList.all (fun c => c != '\n') = true)
    (h1 : rec.location.toList.all (fun c => c != '\n') = true)
    (h2 : rec.groundwater_level.toList.all (fun c => c != '\n') = true)
    (h3 : rec.pH.toList.all (fun c => c != '\n') = true)
    (h4 : rec.TDS.toList.all (fun c => c != '\n') = true)
    (h5 : rec.COD.toList.all (fun c => c != '\n') = true)
    (h6 : rec.BOD.toList.all (fun c => c != '\n') = true)
    (h7 : rec.status.toList.all (fun c => c != '\n') = true)
    (h8 : rec.last_updated.toList.all (fun c => c != '\n') = true) :
    splitLines (generate_reply rec language "full").toList =
      [(pyFormat (getLang language).full_report_title [("location", rec.location)]).toList,
       (pyFormat (getLang language).full_report_level [("level", rec.groundwater_level)]).toList,
       (pyFormat (getLang language).full_report_ph [("ph", rec.pH)]).toList,
       (pyFormat (getLang language).full_report_tds [("tds", rec.TDS)]).toList,
       (pyFormat (getLang language).full_report_cod [("cod", rec.COD)]).toList,
       (pyFormat (getLang language).full_report_bod [("bod", rec.BOD)]).toList,
       (pyFormat (getLang language).full_report_status [("status", rec.status)]).toList,
       (pyFormat (getLang language).full_report_date [("date", rec.last_updated)]).toList] ∧
    (splitLines (generate_reply rec language "full").toList).length = 8 := by
  have harg : ∀ (k v : String), v.toList.all (fun c => c != '\n') = true →
      ∀ q ∈ [(k, v)], (Prod.snd q).toList.all (fun c => c != '\n') = true := by
    intro k v hv q hq
    rw [List.mem_singleton] at hq
    subst hq
    exact hv
  have n1 := pyFormat_all _ _ _ (harg "location" rec.location h1) ht1
  have n2 := pyFormat_all _ _ _ (harg "level" rec.groundwater_level h2) ht2
  have n3 := pyFormat_all _ _ _ (harg "ph" rec.pH h3) ht3
  have n4 := pyFormat_all _ _ _ (harg "tds" rec.TDS h4) ht4
  have n5 := pyFormat_all _ _ _ (harg "cod" rec.COD h5) ht5
  have n6 := pyFormat_all _ _ _ (harg "bod" rec.BOD h6) ht6
  have n7 := pyFormat_all _ _ _ (harg "status" rec.status h7) ht7
  have n8 := pyFormat_all _ _ _ (harg "date" rec.last_updated h8) ht8
  have key : splitLines (generate_reply rec language "full").toList =
      [(pyFormat (getLang language).full_report_title [("location", rec.location)]).toList,
       (pyFormat (getLang language).full_report_level [("level", rec.groundwater_level)]).toList,
       (pyFormat (getLang language).full_report_ph [("ph", rec.pH)]).toList,
       (pyFormat (getLang language).full_report_tds [("tds", rec.TDS)]).toList,
       (pyFormat (getLang language).full_report_cod [("cod", rec.COD)]).toList,
       (pyFormat (getLang language).full_report_bod [("bod", rec.BOD)]).toList,
       (pyFormat (getLang language).full_report_status [("status", rec.status)]).toList,
       (pyFormat (getLang language).full_report_date [("date", rec.last_updated)]).toList] := by
    rw [generate_reply_full]
    simp only [toList_append, toList_newline, List.append_assoc, List.singleton_append,
      List.cons_append, List.nil_append]
    rw [splitLines_append n1, splitLines_append n2, splitLines_append n3, splitLines_append n4,
      splitLines_append n5, splitLines_append n6, splitLines_append n7, splitLines_single n8]
  exact ⟨key, by rw [key]; rfl⟩

/-- C5: for every record whose interpolated fields are newline-free (as the
table rows are) and every supported language, the full report is exactly 8
newline-separated lines in the fixed order title, groundwater level, pH,
TDS, COD, BOD, status, last-updated, with no trailing separator after the
final line. -/
theorem claim_C5_full_report_lines (rec : Record) (language : String)
    (hlang : hasLang language = true)
    (h1 : rec.location.toList.all (fun c => c != '\n') = true)
    (h2 : rec.groundwater_level.toList.all (fun c => c != '\n') = true)
    (h3 : rec.pH.toList.all (fun c => c != '\n') = true)
    (h4 : rec.TDS.toList.all (fun c => c != '\n') = true)
    (h5 : rec.COD.toList.all (fun c => c != '\n') = true)
    (h6 : rec.BOD.toList.all (fun c => c != '\n') = true)
    (h7 : rec.status.toList.all (fun c => c != '\n') = true)
    (h8 : rec.last_updated.toList.all (fun c => c != '\n') = true) :
    splitLines (generate_reply rec language "full").toList =
      [(pyFormat (getLang language).full_report_title [("location", rec.location)]).toList,
       (pyFormat (getLang language).full_report_level [("level", rec.groundwater_level)]).toList,
       (pyFormat (getLang language).full_report_ph [("ph", rec.pH)]).toList,
       (pyFormat (getLang language).full_report_tds [("tds", rec.TDS)]).toList,
       (pyFormat (getLang language).full_report_cod [("cod", rec.COD)]).toList,
       (pyFormat (getLang language).full_report_bod [("bod", rec.BOD)]).toList,
       (pyFormat (getLang language).full_report_status [("status", rec.status)]).toList,
       (pyFormat (getLang language).full_report_date [("date", rec.last_updated)]).toList] ∧
    (splitLines (generate_reply rec language "full").toList).length = 8 := by
  obtain hl | hl | hl := hasLang_cases hlang <;> subst hl <;>
    exact splitLines_full_report rec _ (by decide) (by decide) (by decide) (by decide)
      (by decide) (by decide) (by decide) (by decide) h1 h2 h3 h4 h5 h6 h7 h8

/-- Witness for C5 at the Salem record in English. -/
theorem claim_C5_witness :
    splitLines (generate_reply recW "en" "full").toList =
      [(pyFormat (getLang "en").full_report_title [("location", recW.location)]).toList,
       (pyFormat (getLang "en").full_report_level [("level", recW.groundwater_level)]).toList,
       (pyFormat (getLang "en").full_report_ph [("ph", recW.pH)]).toList,
       (pyFormat (getLang "en").full_report_tds [("tds", recW.TDS)]).toList,
       (pyFormat (getLang "en").full_report_cod [("cod", recW.COD)]).toList,
       (pyFormat (getLang "en").full_report_bod [("bod", recW.BOD)]).toList,
       (pyFormat (getLang "en").full_report_status [("status", recW.status)]).toList,
       (pyFormat (getLang "en").full_report_date [("date", recW.last_updated)]).toList] ∧
    (splitLines (generate_reply recW "en" "full").toList).length = 8 :=
  claim_C5_full_report_lines recW "en" (by decide) (by decide) (by decide) (by decide)
    (by decide) (by decide) (by decide) (by decide) (by decide)
